import Mathlib

/-!
Shallow embedding of the g.remote remote-session code: the connection
backends (simplessh, fabricbackend, friendlyssh, localsession, pexpectssh),
the backend selector in g.remote.py, and the two revisions of the
GrassSession orchestrator (grasssession.py and g.remote.py).  Remote
command outcomes are supplied by oracles (functions from the command to a
result), and session methods return the list of performed actions together
with an `Except` value mirroring Python exception propagation.
-/

namespace GRemote

/-- Unified command result: `returncode`, decoded `stdout` and `stderr`
(`subprocess.CompletedProcess` / fabric result as normalized by the code). -/
structure CommandResult where
  returncode : Nat
  stdout : String
  stderr : String
  deriving Repr, DecidableEq

/-- The single-quote character (used by the run_command quoting logic). -/
def squote : Char := Char.ofNat 39

/-- The single-quote character as a string. -/
def apos : String := squote.toString

/-- State of simplessh.SshConnection: user, host and the `openssh` flag
set to true in `__init__`. -/
structure SshConnection where
  user : String
  host : String
  openssh : Bool
  deriving Repr, DecidableEq

/-- Python `command.insert(1, x)`: insert an element at index 1
(clamped for lists shorter than 1). -/
def insertAt1 (x : String) : List String → List String
  | [] => [x]
  | a :: rest => a :: x :: rest

/-- Command-line adjustment done at the start of SshConnection._exec:
when `openssh` is set, `-oBatchMode=yes` is inserted at index 1. -/
def SshConnection.withBatchMode (c : SshConnection) (command : List String) :
    List String :=
  if c.openssh then insertAt1 "-oBatchMode=yes" command else command

/-- SshConnection._exec: runs the adjusted command via
`subprocess.run(..., check=check, capture_output=True)`.  The local process
outcome is supplied by the oracle `proc`.  With `check` set, a non-zero
return code raises `CalledProcessError` carrying the captured result
(modelled as `Except.error`); otherwise the result is returned. -/
def SshConnection.exec (c : SshConnection) (proc : List String → CommandResult)
    (command : List String) (check : Bool) : Except CommandResult CommandResult :=
  let res := proc (c.withBatchMode command)
  if check ∧ res.returncode ≠ 0 then Except.error res else Except.ok res

/-- SshConnection.run: wraps the command in an `ssh` invocation. -/
def SshConnection.sshCommand (c : SshConnection) (command : String) : List String :=
  ["ssh", "-l", c.user, c.host, command]

/-- SshConnection.run delegates to `_exec` with its default `check=True`. -/
def SshConnection.run (c : SshConnection) (proc : List String → CommandResult)
    (command : String) : Except CommandResult CommandResult :=
  c.exec proc (c.sshCommand command) true

/-- FabricConnection.run (fabricbackend.py): `warn = not check`, delegates to
fabric with `hide=True, warn=warn`.  Fabric raises `UnexpectedExit` carrying
the result exactly when `warn` is false and the exit status is non-zero;
otherwise the result (with `returncode` populated) is returned.  The remote
outcome is supplied by the oracle `proc`. -/
def FabricConnection.run (proc : String → CommandResult) (command : String)
    (check : Bool) : Except CommandResult CommandResult :=
  let warn := !check
  let res := proc command
  if ¬warn ∧ res.returncode ≠ 0 then Except.error res else Except.ok res

/-- Raw remote-channel output as seen by friendlyssh's paramiko channel:
captured stdout and stderr streams plus the (never-consulted) exit status. -/
structure RemoteOutput where
  stdout : String
  stderr : String
  exitStatus : Nat
  deriving Repr, DecidableEq

/-- friendlyssh Connection.run: opens a channel, reads the remote stdout and
stderr and writes both to the local `sys.stdout` / `sys.stderr` (the
`if stderr:` guards test a file object, which is always truthy).  The
function has no return statement, so it returns `None`: modelled as a triple
(returned result, lines written to local stdout, lines written to local
stderr). -/
def FriendlyConnection.run (remote : String → RemoteOutput) (command : String) :
    Option CommandResult × List String × List String :=
  let out := remote command
  (none, [out.stdout], [out.stderr])

/-- localsession LocalConnection._exec: `subprocess.call(command)` without
any capture (the child inherits the local terminal) and without returning
the status — the function body discards `subprocess.call`'s value and
returns `None`. -/
def LocalConnection.exec (call : List String → Nat) (command : List String) :
    Option CommandResult :=
  let _ := call command
  none

/-- pexpectssh SshSession._exec, abstracted: returns the captured text
(`child.before`) supplied by the oracle `remote`, and echoes the command and
the captured text to the local stderr only when `verbose` is set.  The
prompt-answering interaction is abstracted away. -/
def SshSession.exec (remote : String → String) (verbose : Bool)
    (command : String) : String × List String :=
  (remote command,
   if verbose then ["-> " ++ command, "<- " ++ remote command ++ "|"] else [])

/-- Result carried by an `Except` from a run-style call, whether it was
returned normally or attached to the raised failure. -/
def exceptResult : Except CommandResult CommandResult → CommandResult
  | Except.ok r => r
  | Except.error r => r

/-- Backend names handled by the dispatch in get_session's loop
(g.remote.py); any other candidate string matches no branch and is passed
over without a construction attempt. -/
def knownBackend (b : String) : Bool :=
  b == "paramiko" || b == "simple" || b == "pexpect"

/-- Candidate list computed at the top of get_session (g.remote.py):
a truthy `options[backend]` forces that single candidate, otherwise the
fixed list `paramiko, simple` is used.  `sys.platform` is consulted only
for the wording of the final fatal message, never for the candidate list;
the unused `platform` argument records that. -/
def backendCandidates (platform : String) (requested : String) : List String :=
  let _ := platform
  if requested.isEmpty then ["paramiko", "simple"] else [requested]

/-- The construction loop of get_session: each known candidate is attempted
in order; `avail b = false` models the ImportError path (transport
dependency absent), which logs and continues; the first success breaks out
of the loop.  Returns the list of attempted candidates and the chosen
backend (`none` models the fatal no-backend-available exit). -/
def selectBackend (avail : String → Bool) : List String → List String × Option String
  | [] => ([], none)
  | b :: rest =>
    if knownBackend b then
      if avail b then ([b], some b)
      else
        let p := selectBackend avail rest
        (b :: p.1, p.2)
    else selectBackend avail rest

/-- Observable steps performed by GrassSession methods: remote commands
(`connection.run`), transfers (`connection.put` / `connection.get`), remote
chmod, local pack-module invocations (`gs.run_command`), local temporary
script writes and removals, and stderr prints. -/
inductive Action where
  | run (command : String)
  | put (localPath remotePath : String)
  | get (remotePath localPath : String)
  | chmod (path : String) (mode : Nat)
  | localPack (packModule input output : String)
  | localWrite (file content : String)
  | localRemove (file : String)
  | printStderr (text : String)
  deriving Repr, DecidableEq

/-- Behaviour of `connection.run(cmd)` at its default `check`: both
result-returning backends (SshConnection.run via `_exec(check=True)` and
FabricConnection.run with `check=True`) raise a failure carrying the result
exactly when the remote exit status is non-zero.  The remote outcome for
each command string is supplied by the oracle `conn`. -/
def connRun (conn : String → CommandResult) (cmd : String) :
    Except CommandResult CommandResult :=
  let res := conn cmd
  if res.returncode = 0 then Except.ok res else Except.error res

/-- Python truthiness of an optional string option: `None` and the empty
string are falsy. -/
def pyTruthy : Option String → Bool
  | none => false
  | some s => !s.isEmpty

/-- POSIX basename as used on the generated script names
(`os.path.basename`): the characters after the last `/`. -/
def basename (p : String) : String :=
  String.mk (p.data.foldl (fun acc c => if c = '/' then [] else acc ++ [c]) [])

/-- State of the current GrassSession class (grasssession.py). -/
structure GrassSession where
  grass_command : String
  grass_version : Option Nat
  full_location : String
  full_mapset : String
  full_permanent : String
  directory : String
  delete_directory : Bool
  deriving Repr, DecidableEq

/-- GrassSession.__init__ (grasssession.py).  Remote paths are joined with
the fixed separator `/`.  With a truthy `directory` the code issues the two
literal commands `ls {directory}/..` and `mkdir -p {directory}` — the
source passes these strings without any `.format` call, so the braces are
sent verbatim — and marks the directory non-ephemeral.  Otherwise it runs
`mktemp -d`, takes the stripped stdout as the directory and marks it
ephemeral (`_delete_directory = True`).  Returns the session and the list
of remote commands issued. -/
def GrassSession.init (conn : String → CommandResult)
    (grassdata location mapset : String) (directory : Option String)
    (grass_command : String) (grass_version : Option Nat) :
    GrassSession × List Action :=
  let full_location := grassdata ++ "/" ++ location
  let full_mapset := grassdata ++ "/" ++ location ++ "/" ++ mapset
  let full_permanent := grassdata ++ "/" ++ location ++ "/PERMANENT"
  if pyTruthy directory then
    ({ grass_command, grass_version, full_location, full_mapset, full_permanent,
       directory := directory.getD "", delete_directory := false },
     [Action.run "ls {directory}/..", Action.run "mkdir -p {directory}"])
  else
    let res := conn "mktemp -d"
    ({ grass_command, grass_version, full_location, full_mapset, full_permanent,
       directory := res.stdout.trim, delete_directory := true },
     [Action.run "mktemp -d"])

/-- GrassSession.close (grasssession.py): removes the working directory
recursively only when it was marked ephemeral. -/
def GrassSession.close (s : GrassSession) : List Action :=
  if s.delete_directory then [Action.run ("rm -r " ++ s.directory)] else []

/-- Remote path of a staged script: `{dir}/{script}` with the basename of
the local path. -/
def GrassSession.remoteScriptPath (s : GrassSession) (script : String) : String :=
  s.directory ++ "/" ++ basename script

/-- The remote invocation built by GrassSession.run_script
(grasssession.py): `{grass} {mapset} --exec {script}` — unconditionally the
modern grammar; `grass_version` is never consulted. -/
def GrassSession.execCommand (s : GrassSession) (script : String) : String :=
  s.grass_command ++ " " ++ s.full_mapset ++ " --exec " ++ s.remoteScriptPath script

/-- GrassSession.run_script (grasssession.py): put the script, chmod it to
`stat.S_IRWXU` (448), run the `--exec` invocation, and, when `remove` is
set and the run returned, delete the remote copy with
`connection.run('rm {file}')` — also at the default check, so a non-zero
`rm` status raises too, and the `return result` line is never reached.
A raise from the execution run propagates, skipping the removal.  On the
fully successful path the returned result is the execution step's, not the
cleanup step's.  The put/chmod transfer steps are modelled as
succeeding. -/
def GrassSession.run_script (s : GrassSession) (conn : String → CommandResult)
    (script : String) (remove : Bool) :
    List Action × Except CommandResult CommandResult :=
  let rsp := s.remoteScriptPath script
  let cmd := s.execCommand script
  let base := [Action.put script rsp, Action.chmod rsp 448, Action.run cmd]
  match connRun conn cmd with
  | Except.error e => (base, Except.error e)
  | Except.ok res =>
    if remove then
      match connRun conn ("rm " ++ rsp) with
      | Except.error e => (base ++ [Action.run ("rm " ++ rsp)], Except.error e)
      | Except.ok _ => (base ++ [Action.run ("rm " ++ rsp)], Except.ok res)
    else (base, Except.ok res)

/-- Header written by GrassSession.run_code before the user code. -/
def pythonHeader : String :=
  "#!/usr/bin/env python\nimport grass.script as gs\n"

/-- Header written by GrassSession.run_bash_code before the user code. -/
def bashHeader : String := "#!/usr/bin/env bash\n"

/-- GrassSession.run_code (grasssession.py) for string code: write the
local temporary script (name from unique_script_name, passed in as
`scriptName` since it contains a generated uuid), delegate to run_script
with `remove=True`, then `os.remove` the local file and return the result.
There is no try/finally: a raise from run_script propagates and the
`os.remove` line is never reached. -/
def GrassSession.run_code (s : GrassSession) (conn : String → CommandResult)
    (code : String) (scriptName : String) :
    List Action × Except CommandResult CommandResult :=
  let w := Action.localWrite scriptName (pythonHeader ++ code)
  let p := s.run_script conn scriptName true
  match p.2 with
  | Except.error e => (w :: p.1, Except.error e)
  | Except.ok res => (w :: p.1 ++ [Action.localRemove scriptName], Except.ok res)

/-- GrassSession.run_bash_code (grasssession.py): identical shape to
run_code with the bash header and `.sh` naming. -/
def GrassSession.run_bash_code (s : GrassSession) (conn : String → CommandResult)
    (code : String) (scriptName : String) :
    List Action × Except CommandResult CommandResult :=
  let w := Action.localWrite scriptName (bashHeader ++ code)
  let p := s.run_script conn scriptName true
  match p.2 with
  | Except.error e => (w :: p.1, Except.error e)
  | Except.ok res => (w :: p.1 ++ [Action.localRemove scriptName], Except.ok res)

/-- Serialization of one positional argument in GrassSession.run_command:
always wrapped in single quotes. -/
def quotePositional (a : String) : String := apos ++ a ++ apos

/-- Serialization of one keyword argument in GrassSession.run_command:
double quotes are chosen when the value contains a single quote, single
quotes otherwise. -/
def quoteKeyword (opt val : String) : String :=
  let q := if val.data.contains squote then "\"" else apos
  opt ++ "=" ++ q ++ val ++ q

/-- The single generated statement of GrassSession.run_command:
`gs.run_command(<serialized parameters>)` followed by one newline. -/
def runCommandCode (args : List String) (kwargs : List (String × String)) :
    String :=
  "gs.run_command(" ++
    String.intercalate ", "
      (args.map quotePositional ++ kwargs.map fun p => quoteKeyword p.1 p.2) ++
    ")\n"

/-- GrassSession.run_command (grasssession.py): builds the one-statement
code and delegates to run_code, returning its result.  `uname` supplies the
unique_script_name for the generated code. -/
def GrassSession.run_command (s : GrassSession) (conn : String → CommandResult)
    (uname : String → String) (args : List String)
    (kwargs : List (String × String)) :
    List Action × Except CommandResult CommandResult :=
  let code := runCommandCode args kwargs
  s.run_code conn code (uname code)

/-- One iteration of the GrassSession.put_elements loop (grasssession.py):
local pack via `gs.run_command(pack, input=name, output=filename,
overwrite=True)`, transfer of the packed artifact to
`{dir}/{filename}`, then the remote unpack through
`self.run_command(unpack, input=remote_filename, overwrite=True)`. -/
def GrassSession.put_element (s : GrassSession) (conn : String → CommandResult)
    (uname : String → String) (pack unpack sfx name : String) :
    List Action × Except CommandResult CommandResult :=
  let filename := name ++ sfx
  let remote_filename := s.directory ++ "/" ++ filename
  let p := s.run_command conn uname [unpack]
    [("input", remote_filename), ("overwrite", "True")]
  (Action.localPack pack name filename :: Action.put filename remote_filename ::
    p.1, p.2)

/-- GrassSession.put_elements (grasssession.py): iterates the elements in
order; after each unpack it prints the stderr when the returned
`returncode` is non-zero and continues with the next element.  A raise
escaping `run_command` (which is what the default-check backends do on a
non-zero remote status) propagates out of the loop, abandoning the
remaining elements. -/
def GrassSession.put_elements (s : GrassSession) (conn : String → CommandResult)
    (uname : String → String) (elements : List String)
    (pack unpack sfx : String) : List Action × Except CommandResult Unit :=
  match elements with
  | [] => ([], Except.ok ())
  | name :: rest =>
    let p := s.put_element conn uname pack unpack sfx name
    match p.2 with
    | Except.error e => (p.1, Except.error e)
    | Except.ok res =>
      let printed :=
        if res.returncode ≠ 0 then [Action.printStderr res.stderr] else []
      let q := s.put_elements conn uname rest pack unpack sfx
      (p.1 ++ printed ++ q.1, q.2)

/-- State of the older GrassSession class defined inside g.remote.py. -/
structure GrassSessionOld where
  grass_command : String
  full_location : String
  full_mapset : String
  full_permanent : String
  directory : String
  deriving Repr, DecidableEq

/-- GrassSession.__init__ in g.remote.py: a truthy `directory` is stored
as-is with no probe and no mkdir; otherwise the fixed path `/tmp/gremote`
is used and created with a plain `mkdir`.  There is no ephemeral flag. -/
def GrassSessionOld.init (grassdata location mapset : String)
    (directory : Option String) (grass_command : String) :
    GrassSessionOld × List Action :=
  let full_location := grassdata ++ "/" ++ location
  let full_mapset := grassdata ++ "/" ++ location ++ "/" ++ mapset
  let full_permanent := grassdata ++ "/" ++ location ++ "/PERMANENT"
  if pyTruthy directory then
    ({ grass_command, full_location, full_mapset, full_permanent,
       directory := directory.getD "" }, [])
  else
    ({ grass_command, full_location, full_mapset, full_permanent,
       directory := "/tmp/gremote" }, [Action.run "mkdir /tmp/gremote"])

/-- GrassSession.close in g.remote.py: unconditionally removes the working
directory. -/
def GrassSessionOld.close (s : GrassSessionOld) : List Action :=
  [Action.run ("rm -r " ++ s.directory)]

/-- The remote invocation built by GrassSession.run_script in g.remote.py:
`GRASS_BATCH_JOB={script} {grass} -text {mapset}` — unconditionally the
legacy grammar; no version is even stored on this class. -/
def GrassSessionOld.execCommand (s : GrassSessionOld) (script : String) :
    String :=
  "GRASS_BATCH_JOB=" ++ s.directory ++ "/" ++ basename script ++ " " ++
    s.grass_command ++ " -text " ++ s.full_mapset

/-- Remote oracle where every command succeeds with empty output. -/
def connOk : String → CommandResult := fun _ => ⟨0, "", ""⟩

/-- Remote oracle where every command exits 1 with stderr text; in
particular the remote unpack and script executions fail. -/
def connFail : String → CommandResult := fun _ => ⟨1, "", "error output"⟩

/-- Fixed unique_script_name oracle (the uuid part of the generated name is
irrelevant to the claims). -/
def unameX : String → String := fun _ => "g_remote_script_x.py"

/-- Remote oracle where every command succeeds except the cleanup of the
staged script `/work/x.py`, whose `rm` exits 1. -/
def connRmFail : String → CommandResult :=
  fun cmd =>
    if cmd = "rm /work/x.py" then ⟨1, "", "rm failed"⟩ else ⟨0, "", ""⟩

/-- Concrete session over an explicit working directory `/work`, with a
remote GRASS version (710) below the threshold named by the specification
(720). -/
def sessionW : GrassSession :=
  (GrassSession.init connOk "grassdata" "loc" "mapset" (some "/work") "grass"
    (some 710)).1

/-- Availability oracle under which only the `simple` backend constructs. -/
def availSimple : String → Bool := fun b => b == "simple"

/-- Local process oracle (list-command form) failing with status 2. -/
def procListFail : List String → CommandResult := fun _ => ⟨2, "out", "err"⟩

/-- Remote oracle (string-command form) failing with status 2. -/
def procStrFail : String → CommandResult := fun _ => ⟨2, "out", "err"⟩

/-- Concrete simplessh connection state. -/
def sshC : SshConnection := ⟨"user", "host", true⟩

/-- Remote channel oracle with non-zero exit status and non-empty output on
both streams. -/
def remoteFail : String → RemoteOutput := fun _ => ⟨"out", "err", 1⟩

/-- put_elements of two rasters over `/work` when the remote side fails
every command (so the first unpack step exits non-zero). -/
def putBatchFailing : List Action × Except CommandResult Unit :=
  sessionW.put_elements connFail unameX ["a", "b"] "r.pack" "r.unpack" ".rpack"

/-- The result-or-attached-result of an error/ok branch over the same
payload. -/
theorem exceptResult_ite (b : Prop) [Decidable b] (r : CommandResult) :
    exceptResult (if b then Except.error r else Except.ok r) = r := by
  by_cases h : b <;> simp [h, exceptResult]

/-- C6: on both check-flag run paths (SshConnection._exec, which
SshConnection.run delegates to, and FabricConnection.run), `check=false`
returns the captured result and never raises, whatever the exit status;
`check=true` raises exactly when the exit status is non-zero, and the
raised failure carries the full result. -/
theorem C6_run_check_semantics (c : SshConnection)
    (proc : List String → CommandResult) (cmd : List String)
    (procF : String → CommandResult) (cmdF : String) :
    c.exec proc cmd false = Except.ok (proc (c.withBatchMode cmd)) ∧
    ((proc (c.withBatchMode cmd)).returncode = 0 →
      c.exec proc cmd true = Except.ok (proc (c.withBatchMode cmd))) ∧
    ((proc (c.withBatchMode cmd)).returncode ≠ 0 →
      c.exec proc cmd true = Except.error (proc (c.withBatchMode cmd))) ∧
    FabricConnection.run procF cmdF false = Except.ok (procF cmdF) ∧
    ((procF cmdF).returncode = 0 →
      FabricConnection.run procF cmdF true = Except.ok (procF cmdF)) ∧
    ((procF cmdF).returncode ≠ 0 →
      FabricConnection.run procF cmdF true = Except.error (procF cmdF)) := by
  refine ⟨?_, ?_, ?_, ?_, ?_, ?_⟩
  · simp [SshConnection.exec]
  · intro h; simp [SshConnection.exec, h]
  · intro h; simp [SshConnection.exec, h]
  · simp [FabricConnection.run]
  · intro h; simp [FabricConnection.run, h]
  · intro h; simp [FabricConnection.run, h]

/-- C6 witness: with a concrete connection and a local process exiting 2,
`check=true` raises carrying the result and fabric with `check=false`
returns it. -/
theorem C6_witness :
    ((procListFail (sshC.withBatchMode ["ls"])).returncode ≠ 0 ∧
      sshC.exec procListFail ["ls"] true =
        Except.error (procListFail (sshC.withBatchMode ["ls"]))) ∧
    FabricConnection.run procStrFail "ls" false = Except.ok (procStrFail "ls") :=
  ⟨⟨by decide,
    (C6_run_check_semantics sshC procListFail ["ls"] procStrFail "ls").2.2.1
      (by decide)⟩,
   (C6_run_check_semantics sshC procListFail ["ls"] procStrFail "ls").2.2.2.1⟩

/-- C7 as stated is false on the code: the paramiko backend
(friendlyssh Connection.run) returns no Result at all — even for a failing
command — and copies the remote stdout/stderr onto the local streams, and
the loopback backend (LocalConnection) likewise returns no Result. -/
theorem C7_counterexample :
    FriendlyConnection.run remoteFail "false" = (none, ["out"], ["err"]) ∧
    (FriendlyConnection.run remoteFail "false").1 = none ∧
    LocalConnection.exec (fun _ => 1) ["false"] = none := by
  refine ⟨rfl, rfl, rfl⟩

/-- C7 amended: the simple and fabric backends always yield the fully
captured result (returned, or attached to the raised failure); the paramiko
backend returns no Result and writes the remote stdout/stderr to the local
streams; the loopback backend returns no Result; the pexpect backend
returns the captured text and echoes to the local terminal only in verbose
mode. -/
theorem C7_result_invariant_amended (remote : String → RemoteOutput)
    (cmd : String) (call : List String → Nat) (cmdL : List String)
    (c : SshConnection) (proc : List String → CommandResult) (cmdS : String)
    (procF : String → CommandResult) (pex : String → String) (pcmd : String) :
    (FriendlyConnection.run remote cmd =
      (none, [(remote cmd).stdout], [(remote cmd).stderr])) ∧
    LocalConnection.exec call cmdL = none ∧
    exceptResult (c.run proc cmdS) =
      proc (c.withBatchMode (c.sshCommand cmdS)) ∧
    (∀ ch : Bool, exceptResult (FabricConnection.run procF cmdS ch) =
      procF cmdS) ∧
    (SshSession.exec pex false pcmd).2 = [] ∧
    (SshSession.exec pex true pcmd).1 = pex pcmd := by
  refine ⟨rfl, rfl, ?_, ?_, rfl, rfl⟩
  · simp only [SshConnection.run, SshConnection.exec]
    exact exceptResult_ite _ _
  · intro ch
    simp only [FabricConnection.run]
    exact exceptResult_ite _ _

/-- C10: the auto candidate list is exactly paramiko then simple, its
computation is independent of the platform, and pexpect appears among the
candidates only when it is the explicitly requested backend. -/
theorem C10_auto_candidates (platform platform2 requested : String) :
    backendCandidates platform "" = ["paramiko", "simple"] ∧
    backendCandidates platform requested = backendCandidates platform2 requested ∧
    ("pexpect" ∈ backendCandidates platform requested →
      requested = "pexpect") := by
  refine ⟨rfl, rfl, ?_⟩
  intro h
  by_cases he : requested.isEmpty
  · simp [backendCandidates, he] at h
  · simp [backendCandidates, he] at h
    exact h.symm

/-- C10 witness: pexpect is consulted exactly when requested by name. -/
theorem C10_witness :
    "pexpect" ∈ backendCandidates "win32" "pexpect" ∧ "pexpect" = "pexpect" :=
  ⟨by decide, (C10_auto_candidates "win32" "linux" "pexpect").2.2 (by decide)⟩

/-- C8: run_command hands exactly the one generated
`gs.run_command(...)` statement to the ad-hoc code path and returns its
result; each positional argument is wrapped in single quotes, a keyword
value without a single quote is serialized as `opt='val'`, one containing a
single quote switches to double quotes, and the example call with
`region=test` produces the single statement embedding the single-quoted
value. -/
theorem C8_run_command_quoting (s : GrassSession)
    (conn : String → CommandResult) (uname : String → String)
    (args : List String) (kwargs : List (String × String))
    (a opt val : String) :
    s.run_command conn uname args kwargs =
      s.run_code conn (runCommandCode args kwargs)
        (uname (runCommandCode args kwargs)) ∧
    quotePositional a = apos ++ a ++ apos ∧
    (val.data.contains squote = false →
      quoteKeyword opt val = opt ++ "=" ++ apos ++ val ++ apos) ∧
    (val.data.contains squote = true →
      quoteKeyword opt val = opt ++ "=" ++ "\"" ++ val ++ "\"") ∧
    runCommandCode ["g.region"] [("region", "test")] =
      "gs.run_command(" ++ apos ++ "g.region" ++ apos ++ ", region=" ++
        apos ++ "test" ++ apos ++ ")\n" := by
  refine ⟨rfl, rfl, ?_, ?_, ?_⟩
  · intro h
    have hmem : squote ∉ val.data := by simpa using h
    simp [quoteKeyword, hmem, String.append_assoc]
  · intro h
    have hmem : squote ∈ val.data := by simpa using h
    simp [quoteKeyword, hmem, String.append_assoc]
  · decide

/-- C8 witness: the scenario-C keyword value `test` has no single quote and
is serialized single-quoted. -/
theorem C8_witness :
    "test".data.contains squote = false ∧
    quoteKeyword "region" "test" = "region" ++ "=" ++ apos ++ "test" ++ apos :=
  ⟨by decide,
   (C8_run_command_quoting sessionW connOk unameX [] [] "" "region" "test").2.2.1
     (by decide)⟩

/-- C1 as stated is false on the code: this session carries remote version
710, below the threshold 720, yet run_script issues the modern
`--exec` grammar, not the legacy `GRASS_BATCH_JOB` one. -/
theorem C1_counterexample :
    sessionW.grass_version = some 710 ∧
    (sessionW.run_script connOk "script.py" false).1 =
      [Action.put "script.py" "/work/script.py",
       Action.chmod "/work/script.py" 448,
       Action.run "grass grassdata/loc/mapset --exec /work/script.py"] ∧
    ("grass grassdata/loc/mapset --exec /work/script.py").data.take 15 ≠
      "GRASS_BATCH_JOB".data := by
  refine ⟨rfl, ?_, ?_⟩ <;> decide

/-- C1 amended: no version comparison occurs anywhere in either
run_script.  The grasssession.py revision always builds the modern
`<app> <target-context> --exec <remote-script-path>` invocation — its
stored `grass_version` is never consulted — while the g.remote.py revision
always builds the legacy
`GRASS_BATCH_JOB=<remote-script-path> <app> -text <target-context>`
invocation (that class does not even store a version). -/
theorem C1_invocation_grammar_amended (s : GrassSession) (v : Option Nat)
    (script : String) (t : GrassSessionOld) :
    GrassSession.execCommand { s with grass_version := v } script =
      GrassSession.execCommand s script ∧
    (∃ x y, GrassSession.execCommand s script = x ++ " --exec " ++ y) ∧
    (∃ r, GrassSessionOld.execCommand t script = "GRASS_BATCH_JOB=" ++ r) := by
  refine ⟨rfl,
    ⟨s.grass_command ++ " " ++ s.full_mapset, s.remoteScriptPath script, ?_⟩,
    ⟨t.directory ++ "/" ++ basename script ++ " " ++ t.grass_command ++
      " -text " ++ t.full_mapset, ?_⟩⟩
  · simp [GrassSession.execCommand, String.append_assoc]
  · simp [GrassSessionOld.execCommand, String.append_assoc]

/-- C3: with the caller-specified directory `/srv/work` the initialization
issues the two literal commands `ls {directory}/..` and
`mkdir -p {directory}` — the braces are sent verbatim because the source
never applies `.format` to these strings — while storing the real path and
marking the directory non-ephemeral; in particular the substituted
commands the claim describes are not the ones issued. -/
theorem C3_init_probe_literal :
    (GrassSession.init connOk "g" "l" "m" (some "/srv/work") "grass" none).2 =
      [Action.run "ls {directory}/..", Action.run "mkdir -p {directory}"] ∧
    (GrassSession.init connOk "g" "l" "m" (some "/srv/work") "grass"
      none).1.directory = "/srv/work" ∧
    (GrassSession.init connOk "g" "l" "m" (some "/srv/work") "grass"
      none).1.delete_directory = false ∧
    (GrassSession.init connOk "g" "l" "m" (some "/srv/work") "grass" none).2 ≠
      [Action.run "ls /srv/work/..", Action.run "mkdir -p /srv/work"] := by
  refine ⟨?_, ?_, ?_, ?_⟩ <;> decide

/-- C4 as stated is false on the code: the g.remote.py GrassSession,
created with the explicit directory `/srv/data`, removes it on close. -/
theorem C4_counterexample :
    (GrassSessionOld.init "g" "l" "m" (some "/srv/data") "grass").1.close =
      [Action.run "rm -r /srv/data"] ∧
    (GrassSessionOld.init "g" "l" "m" (some "/srv/data") "grass").1.close ≠
      [] := by
  refine ⟨?_, ?_⟩ <;> decide

/-- C4 amended: in grasssession.py a session over an explicit non-empty
directory is non-ephemeral and close removes nothing, while
`directory=None` takes the stripped `mktemp -d` stdout as an ephemeral
directory that close removes recursively; the older g.remote.py class has
no ephemeral flag, uses the fixed `/tmp/gremote` when no directory is
given, and its close always removes the working directory. -/
theorem C4_directory_lifecycle_amended (conn : String → CommandResult)
    (g l m d gc : String) (v : Option Nat) :
    (d.isEmpty = false →
      (GrassSession.init conn g l m (some d) gc v).1.delete_directory = false ∧
      (GrassSession.init conn g l m (some d) gc v).1.close = []) ∧
    ((GrassSession.init conn g l m none gc v).1.delete_directory = true ∧
      (GrassSession.init conn g l m none gc v).1.directory =
        (conn "mktemp -d").stdout.trim ∧
      (GrassSession.init conn g l m none gc v).1.close =
        [Action.run ("rm -r " ++ (conn "mktemp -d").stdout.trim)]) ∧
    (∀ t : GrassSessionOld,
      t.close = [Action.run ("rm -r " ++ t.directory)]) ∧
    (GrassSessionOld.init g l m none gc).1.directory = "/tmp/gremote" := by
  refine ⟨?_, ⟨?_, ?_, ?_⟩, fun t => rfl, rfl⟩
  · intro hd
    constructor <;> simp [GrassSession.init, GrassSession.close, pyTruthy, hd]
  · rfl
  · rfl
  · simp [GrassSession.init, GrassSession.close, pyTruthy]

/-- C4 witness: a concrete explicit directory is kept on close, a concrete
generated one is removed. -/
theorem C4_witness :
    "/srv/keep".isEmpty = false ∧
    ((GrassSession.init connOk "g" "l" "m" (some "/srv/keep") "grass"
        none).1.delete_directory = false ∧
      (GrassSession.init connOk "g" "l" "m" (some "/srv/keep") "grass"
        none).1.close = []) :=
  ⟨by decide,
   (C4_directory_lifecycle_amended connOk "g" "l" "m" "/srv/keep" "grass"
     none).1 (by decide)⟩

/-- C5: over any ordering of known backend candidates, the selector
returns the first constructible candidate (the `find?` of the availability
oracle) and its construction attempts are exactly the unavailable prefix
followed by the chosen candidate — once one succeeds, no later candidate
is attempted. -/
theorem C5_selector_first_available (avail : String → Bool) :
    ∀ bs : List String, (∀ b ∈ bs, knownBackend b = true) →
    (selectBackend avail bs).2 = bs.find? avail ∧
    (selectBackend avail bs).1 =
      bs.takeWhile (fun b => !avail b) ++ (bs.find? avail).toList := by
  intro bs
  induction bs with
  | nil => intro _; exact ⟨rfl, rfl⟩
  | cons b rest ih =>
    intro h
    have hb : knownBackend b = true := h b (List.mem_cons_self b rest)
    have hrest : ∀ x ∈ rest, knownBackend x = true :=
      fun x hx => h x (List.mem_cons_of_mem b hx)
    have ihr := ih hrest
    by_cases ha : avail b = true
    · simp [selectBackend, hb, ha, List.find?, List.takeWhile]
    · have ha' : avail b = false := by
        cases hv : avail b
        · rfl
        · exact absurd hv ha
      simp [selectBackend, hb, ha', List.find?, List.takeWhile, ihr.1, ihr.2]

/-- C5 witness: with paramiko unavailable and simple available, the
selector attempts paramiko then simple, picks simple, and never attempts
pexpect. -/
theorem C5_witness :
    (∀ b ∈ ["paramiko", "simple", "pexpect"], knownBackend b = true) ∧
    ((selectBackend availSimple ["paramiko", "simple", "pexpect"]).2 =
        (["paramiko", "simple", "pexpect"]).find? availSimple ∧
      (selectBackend availSimple ["paramiko", "simple", "pexpect"]).1 =
        (["paramiko", "simple", "pexpect"]).takeWhile (fun b => !availSimple b)
          ++ ((["paramiko", "simple", "pexpect"]).find? availSimple).toList) :=
  ⟨by decide,
   C5_selector_first_available availSimple ["paramiko", "simple", "pexpect"]
     (by decide)⟩

/-- C2: evaluating put_elements on two rasters over the session at `/work`
where the remote unpack of the first element exits 1: element `a` is
packed, transferred and its unpack attempted, then the non-zero status
raises out of `connection.run` (default check) — the failure propagates as
an exception, nothing is printed to stderr, and none of element `b`'s
pack/put/unpack steps execute.  This contradicts the claim's
print-and-continue behaviour; the dead `if result.returncode:` branch in
the source shows the claim describes the intent. -/
theorem C2_batch_aborts_on_unpack_failure :
    putBatchFailing.2 = Except.error ⟨1, "", "error output"⟩ ∧
    Action.localPack "r.pack" "a" "a.rpack" ∈ putBatchFailing.1 ∧
    Action.put "a.rpack" "/work/a.rpack" ∈ putBatchFailing.1 ∧
    Action.run "grass grassdata/loc/mapset --exec /work/g_remote_script_x.py"
      ∈ putBatchFailing.1 ∧
    Action.localPack "r.pack" "b" "b.rpack" ∉ putBatchFailing.1 ∧
    Action.put "b.rpack" "/work/b.rpack" ∉ putBatchFailing.1 ∧
    Action.printStderr "error output" ∉ putBatchFailing.1 := by
  refine ⟨rfl, ?_, ?_, ?_, ?_, ?_, ?_⟩ <;> decide

/-- C9 as stated is false on the code: when the remote execution raises
(remote script exits 1 under the default check), run_code propagates the
failure and the `os.remove` line is never reached — the local temporary
script file it wrote is not deleted. -/
theorem C9_counterexample :
    (sessionW.run_code connFail "code" "g_remote_script_x.py").2 =
      Except.error ⟨1, "", "error output"⟩ ∧
    Action.localWrite "g_remote_script_x.py" (pythonHeader ++ "code")
      ∈ (sessionW.run_code connFail "code" "g_remote_script_x.py").1 ∧
    Action.localRemove "g_remote_script_x.py"
      ∉ (sessionW.run_code connFail "code" "g_remote_script_x.py").1 ∧
    Action.localRemove "g_remote_script_x.py"
      ∉ (sessionW.run_bash_code connFail "code" "g_remote_script_x.py").1 := by
  refine ⟨rfl, ?_, ?_, ?_⟩ <;> decide

/-- C9 amended: run_code and run_bash_code delete their local temporary
script file only on the fully normal path, where both the remote execution
step and the remote `rm` cleanup step exit 0 under the default check
policy; when either remote step raises because of a non-zero exit status —
the execution itself, or the cleanup `rm` of the remote script copy — the
exception propagates past the `os.remove` line, the deletion is skipped and
the local file remains. -/
theorem C9_local_cleanup_amended (s : GrassSession)
    (conn : String → CommandResult) (code name : String) :
    ((conn (s.execCommand name)).returncode = 0 ∧
      (conn ("rm " ++ s.remoteScriptPath name)).returncode = 0 →
      Action.localRemove name ∈ (s.run_code conn code name).1 ∧
      Action.localRemove name ∈ (s.run_bash_code conn code name).1) ∧
    ((conn (s.execCommand name)).returncode ≠ 0 →
      Action.localRemove name ∉ (s.run_code conn code name).1 ∧
      Action.localRemove name ∉ (s.run_bash_code conn code name).1) ∧
    ((conn ("rm " ++ s.remoteScriptPath name)).returncode ≠ 0 →
      Action.localRemove name ∉ (s.run_code conn code name).1 ∧
      Action.localRemove name ∉ (s.run_bash_code conn code name).1) := by
  refine ⟨?_, ?_, ?_⟩
  · intro h
    have hc : connRun conn (s.execCommand name) =
        Except.ok (conn (s.execCommand name)) := by
      simp [connRun, h.1]
    have hr : connRun conn ("rm " ++ s.remoteScriptPath name) =
        Except.ok (conn ("rm " ++ s.remoteScriptPath name)) := by
      simp [connRun, h.2]
    constructor <;>
      simp [GrassSession.run_code, GrassSession.run_bash_code,
        GrassSession.run_script, hc, hr]
  · intro hne
    have hc : connRun conn (s.execCommand name) =
        Except.error (conn (s.execCommand name)) := by
      simp [connRun, hne]
    constructor <;>
      simp [GrassSession.run_code, GrassSession.run_bash_code,
        GrassSession.run_script, hc]
  · intro hrm
    have hr : connRun conn ("rm " ++ s.remoteScriptPath name) =
        Except.error (conn ("rm " ++ s.remoteScriptPath name)) := by
      simp [connRun, hrm]
    by_cases h0 : (conn (s.execCommand name)).returncode = 0
    · have hc : connRun conn (s.execCommand name) =
          Except.ok (conn (s.execCommand name)) := by
        simp [connRun, h0]
      constructor <;>
        simp [GrassSession.run_code, GrassSession.run_bash_code,
          GrassSession.run_script, hc, hr]
    · have hc : connRun conn (s.execCommand name) =
          Except.error (conn (s.execCommand name)) := by
        simp [connRun, h0]
      constructor <;>
        simp [GrassSession.run_code, GrassSession.run_bash_code,
          GrassSession.run_script, hc]

/-- C9 witness: a concrete remote side where the script execution exits 0
but the cleanup `rm` of the remote copy exits 1 — the raise from the
cleanup step skips the local deletion and the temporary file remains. -/
theorem C9_witness :
    (connRmFail ("rm " ++ sessionW.remoteScriptPath "x.py")).returncode ≠ 0 ∧
    (Action.localRemove "x.py" ∉ (sessionW.run_code connRmFail "c" "x.py").1 ∧
      Action.localRemove "x.py" ∉
        (sessionW.run_bash_code connRmFail "c" "x.py").1) :=
  ⟨by decide,
   (C9_local_cleanup_amended sessionW connRmFail "c" "x.py").2.2 (by decide)⟩

end GRemote
